import Mathlib

/-!
Shallow embedding of ghmirror/core/mirror_requests.py: the decision engine of a
caching reverse proxy (conditional requests, pagination-staleness heuristic,
rate-limit fallback, offline synthesis).

External collaborators that are not part of this file of the repository are
modelled as explicit parameters or abstract values:
the HTTP transport (requests.request), the credential hash
(hashlib.sha1 hexdigest), the configured default page size
(ghmirror.core.constants.PER_PAGE_ELEMENTS), the upstream-health flag
(GithubStatus monostate) and the shared cache (RequestsCache).
Python exceptions are modelled with Except.
-/

/-- Python exceptions that the embedded code can raise. -/
inductive PyErr where
  | valueError : PyErr
  | keyError : String → PyErr
  | attributeError : PyErr
deriving DecidableEq, Repr

/-- A header mapping (Python dict, insertion ordered). -/
abbrev Headers := List (String × String)

/-- Python dict lookup: first binding of the key, if any. -/
def hGet : Headers → String → Option String
  | [], _ => none
  | (k0, v0) :: t, k => if k0 = k then some v0 else hGet t k

/-- Python dict assignment: replace the binding in place or append a new one. -/
def hSet : Headers → String → String → Headers
  | [], k, v => [(k, v)]
  | (k0, v0) :: t, k, v => if k0 = k then (k, v) :: t else (k0, v0) :: hSet t k v

/-- Remove every binding of a key. -/
def hDel : Headers → String → Headers
  | [], _ => []
  | (k0, v0) :: t, k => if k0 = k then hDel t k else (k0, v0) :: hDel t k

/-- Python dict.pop(k) with no default: KeyError when the key is absent. -/
def hPop (hs : Headers) (k : String) : Except PyErr Headers :=
  match hGet hs k with
  | some _ => .ok (hDel hs k)
  | none => .error (.keyError k)

/-- Query parameters, same shape as headers. -/
abbrev Params := List (String × String)

/-- Substring test over character lists: Python membership m in s. -/
def listContains (hay pat : List Char) : Bool :=
  (List.range (hay.length + 1)).any (fun i => (hay.drop i).take pat.length == pat)

/-- Python substring membership pat in s on strings. -/
def strContains (s pat : String) : Bool :=
  listContains s.data pat.data

/-- A requests.models.Response as observed by mirror_requests.py: status code,
headers, body text, the length of the value of resp.json, and the parsed
pagination links of the Link header (resp.links, empty list when absent). -/
structure Response where
  status_code : Nat
  headers : Headers
  text : String
  json_len : Nat
  links : List String
deriving DecidableEq, Repr

/-- Modelled from the spec: CacheKey is the pair of request URL and credential
fingerprint (hash of the credential, or a no-credential sentinel). -/
abbrev CacheKey := String × Option String

/-- Modelled from the spec: ResponseCache, the process-wide in-memory key/value
store behind RequestsCache (a mutable singleton dict in the source); get
returns the stored object itself, so in-place header mutation of a served
response is visible in the store. State-passing model: a finite map. -/
abbrev Cache := List (CacheKey × Response)

/-- Cache membership and lookup (RequestsCache contains / getitem). -/
def cacheGet : Cache → CacheKey → Option Response
  | [], _ => none
  | (k0, v0) :: t, k => if k0 = k then some v0 else cacheGet t k

/-- Cache store (RequestsCache setitem): wholesale replacement of the entry. -/
def cacheSet : Cache → CacheKey → Response → Cache
  | [], k, v => [(k, v)]
  | (k0, v0) :: t, k, v => if k0 = k then (k, v) :: t else (k0, v0) :: cacheSet t k v

/-- One outbound HTTP request as issued through requests.request. -/
structure OutCall where
  method : String
  url : String
  headers : Headers
  data : Option String
  params : Params
deriving DecidableEq, Repr

/-- The HTTP transport (requests.request), modelled as a pure function from the
outgoing request to the upstream response. -/
abbrev Transport := String → String → Headers → Option String → Params → Response

/-- Result of a handler: the returned response, the cache state after the call,
and the log of outbound transport calls made during the call. -/
abbrev ReqResult := Except PyErr (Response × Cache × List OutCall)

/-- Set the X-Cache diagnostic header on a response
(resp.headers bracket X-Cache assignment in the source). -/
def set_x_cache (r : Response) (v : String) : Response :=
  { r with headers := hSet r.headers "X-Cache" v }

/-- Decimal digit accumulator for the integer parser; none when a non-digit
appears or when no digit was seen at all. -/
def parseDigits : List Char → Option Nat → Option Nat
  | [], acc => acc
  | c :: t, acc =>
    if c.isDigit then parseDigits t (some ((acc.getD 0) * 10 + (c.toNat - 48)))
    else none

/-- Integer literal parse over characters: optional sign then decimal digits. -/
def pyIntChars : List Char → Option Int
  | [] => none
  | c :: t =>
    if c = Char.ofNat 45 then (parseDigits t none).map (fun n => -(n : Int))
    else if c = Char.ofNat 43 then (parseDigits t none).map (fun n => (n : Int))
    else (parseDigits (c :: t) none).map (fun n => (n : Int))

/-- Python int(s): parse an optionally signed decimal integer literal,
ValueError on failure (whitespace and underscore forms are not modelled). -/
def pyInt (s : String) : Except PyErr Int :=
  match pyIntChars s.data with
  | some n => .ok n
  | none => .error .valueError

/-- mirror_requests.py lines 35-45: read the per_page query parameter as an
integer when present, None otherwise. -/
def get_elements_per_page (url_params : Option Params) : Except PyErr (Option Int) :=
  match url_params with
  | none => .ok none
  | some ps =>
    match hGet ps "per_page" with
    | none => .ok none
    | some s =>
      match pyInt s with
      | .ok n => .ok (some n)
      | .error e => .error e

/-- mirror_requests.py lines 83-84: the effective page size used by the 304
heuristic — the parsed per_page parameter if present, else the configured
default PER_PAGE_ELEMENTS. -/
def per_page_of (PER_PAGE_ELEMENTS : Nat) (pp0 : Option Int) : Int :=
  match pp0 with
  | some n => n
  | none => (PER_PAGE_ELEMENTS : Int)

/-- mirror_requests.py lines 79, 83-85: the outgoing query parameters — the
request parameters as given, with the default page size injected when no
per_page parameter was supplied. -/
def params_of (PER_PAGE_ELEMENTS : Nat) (url_params : Option Params)
    (pp0 : Option Int) : Params :=
  match pp0 with
  | some _ => url_params.getD []
  | none => hSet (url_params.getD []) "per_page" (toString PER_PAGE_ELEMENTS)

/-- mirror_requests.py lines 87-90: the credential fingerprint, sha1 hex digest
of the credential string, or None. The hash itself is the external hashlib
collaborator, passed in as a function. -/
def auth_fingerprint (sha1 : String → String) (auth : Option String) :
    Option String :=
  match auth with
  | none => none
  | some a => some (sha1 a)

/-- mirror_requests.py lines 78, 87-91: outgoing headers start empty and gain
an Authorization header when a credential is present. -/
def auth_headers (auth : Option String) : Headers :=
  match auth with
  | none => []
  | some a => hSet [] "Authorization" a

/-- mirror_requests.py lines 111-119: when a cached entry exists, attach
If-None-Match from its ETag and If-Modified-Since from its Last-Modified,
whichever are present. -/
def conditional_headers (hs : Headers) (cached : Option Response) : Headers :=
  match cached with
  | none => hs
  | some cr =>
    let hs1 := match hGet cr.headers "ETag" with
      | some e => hSet hs "If-None-Match" e
      | none => hs
    match hGet cr.headers "Last-Modified" with
    | some lm => hSet hs1 "If-Modified-Since" lm
    | none => hs1

/-- mirror_requests.py lines 48-58: store the response only when its status is
200 and at least one of ETag, Last-Modified is present. -/
def cache_response (resp : Response) (cache : Cache) (cache_key : CacheKey) :
    Cache :=
  if resp.status_code = 200 ∧
      ((hGet resp.headers "ETag").isSome ∨ (hGet resp.headers "Last-Modified").isSome) then
    cacheSet cache cache_key resp
  else
    cache

/-- mirror_requests.py lines 169-174: the fixed rate-limit phrases. -/
def rate_limit_messages : List String :=
  ["API rate limit exceeded", "abuse detection mechanism"]

/-- mirror_requests.py lines 163-174: a response is rate limited iff its status
is 403 and its body text contains one of the fixed phrases. -/
def should_serve_from_cache (response : Response) : Bool :=
  response.status_code == 403 &&
    rate_limit_messages.any (fun m => strContains response.text m)

/-- mirror_requests.py lines 73-160: the online handler. Returns the response,
the new cache state, and the log of outbound transport calls; errors model the
Python exceptions the code can raise. -/
def online_request (t : Transport) (sha1 : String → String)
    (PER_PAGE_ELEMENTS : Nat) (method url : String)
    (auth data : Option String) (url_params : Option Params)
    (cache : Cache) : ReqResult :=
  match get_elements_per_page url_params with
  | .error e => .error e
  | .ok pp0 =>
    let per_page_elements := per_page_of PER_PAGE_ELEMENTS pp0
    let parameters := params_of PER_PAGE_ELEMENTS url_params pp0
    let auth_sha := auth_fingerprint sha1 auth
    let headers0 := auth_headers auth
    if method ≠ "GET" then
      -- lines 94-107: forward the request verbatim, tag as ONLINE_MISS,
      -- never touch the cache
      let resp := set_x_cache (t method url headers0 data parameters) "ONLINE_MISS"
      .ok (resp, cache, [⟨method, url, headers0, data, parameters⟩])
    else
      let cache_key : CacheKey := (url, auth_sha)
      let cached_response := cacheGet cache cache_key
      let headers1 := conditional_headers headers0 cached_response
      let resp := t "GET" url headers1 none parameters
      let call1 : OutCall := ⟨"GET", url, headers1, none, parameters⟩
      if resp.status_code = 304 then
        -- line 128: cached_response.json() — AttributeError when no entry
        match cached_response with
        | none => .error .attributeError
        | some cr =>
          if (cr.json_len : Int) = per_page_elements ∧ cr.links = [] then
            -- lines 131-141: drop If-None-Match (KeyError when absent),
            -- re-issue, tag as ONLINE_MISS, re-cache
            match hPop headers1 "If-None-Match" with
            | .error e => .error e
            | .ok headers2 =>
              let resp2 := set_x_cache (t "GET" url headers2 none parameters) "ONLINE_MISS"
              .ok (resp2, cache_response resp2 cache cache_key,
                   [call1, ⟨"GET", url, headers2, none, parameters⟩])
          else
            -- lines 143-145: serve the cached entry; the X-Cache header of the
            -- shared cached object is rewritten in place
            let cr2 := set_x_cache cr "ONLINE_HIT"
            .ok (cr2, cacheSet cache cache_key cr2, [call1])
      else if should_serve_from_cache resp then
        -- lines 147-155
        match cached_response with
        | none =>
          .ok (set_x_cache resp "RATE_LIMITED_MISS", cache, [call1])
        | some cr =>
          let cr2 := set_x_cache cr "RATE_LIMITED_HIT"
          .ok (cr2, cacheSet cache cache_key cr2, [call1])
      else
        -- lines 157-160
        let respm := set_x_cache resp "ONLINE_MISS"
        .ok (respm, cache_response respm cache cache_key, [call1])

/-- mirror_requests.py line 177-178 defaults: offline error status code. -/
def DEFAULT_ERROR_CODE : Nat := 504

/-- mirror_requests.py line 178 default: offline error body, a gateway-timeout
JSON object followed by a newline. -/
def DEFAULT_ERROR_MESSAGE : String := "\x7b\"message\": \"gateway timeout\"\x7d\n"

/-- The synthesized offline response (lines 195-199 and 216-220): a fresh
response with the error status, only the X-Cache diagnostic header, and the
error body. Its body parses as a one-element JSON object. -/
def offline_error_response (error_code : Nat) (error_message : String) : Response :=
  ⟨error_code, hSet [] "X-Cache" "OFFLINE_MISS", error_message, 1, []⟩

/-- mirror_requests.py lines 177-221: the offline handler. Never raises and
makes no transport call (it does not even receive the transport). -/
def offline_request (sha1 : String → String) (method url : String)
    (auth : Option String) (cache : Cache)
    (error_code : Nat) (error_message : String) :
    Response × Cache × List OutCall :=
  let auth_sha := auth_fingerprint sha1 auth
  if method ≠ "GET" then
    (offline_error_response error_code error_message, cache, [])
  else
    match cacheGet cache (url, auth_sha) with
    | some cached_response =>
      -- lines 204-211: serve from cache; the X-Cache header of the shared
      -- cached object is rewritten in place
      let cr := set_x_cache cached_response "OFFLINE_HIT"
      (cr, cacheSet cache (url, auth_sha) cr, [])
    | none =>
      (offline_error_response error_code error_message, cache, [])

/-- mirror_requests.py lines 61-70: the dispatcher. The upstream-health flag
(GithubStatus monostate, modelled from the spec as a boolean read once per
call) selects the online or the offline routine. -/
def conditional_request (t : Transport) (sha1 : String → String)
    (PER_PAGE_ELEMENTS : Nat) (online : Bool) (method url : String)
    (auth data : Option String) (url_params : Option Params)
    (cache : Cache) : ReqResult :=
  if online then
    online_request t sha1 PER_PAGE_ELEMENTS method url auth data url_params cache
  else
    .ok (offline_request sha1 method url auth cache DEFAULT_ERROR_CODE DEFAULT_ERROR_MESSAGE)

/-- Modelled from the spec: the effective page size in the words of the spec —
the per-page query parameter parsed as an integer when present (none when it
does not parse), otherwise the configured default page size. -/
def spec_effective_page_size (PER_PAGE_ELEMENTS : Nat)
    (url_params : Option Params) : Option Int :=
  match url_params with
  | none => some (PER_PAGE_ELEMENTS : Int)
  | some ps =>
    match hGet ps "per_page" with
    | none => some (PER_PAGE_ELEMENTS : Int)
    | some s =>
      match pyInt s with
      | .ok n => some n
      | .error _ => none

/-- Outbound calls logged by a handler run (empty on an exception). -/
def res_calls : ReqResult → List OutCall
  | .ok (_, _, cs) => cs
  | .error _ => []

/-- The response returned by a handler run, when it did not raise. -/
def res_resp : ReqResult → Option Response
  | .ok (r, _, _) => some r
  | .error _ => none

/-- The cache state after a handler run, when it did not raise. -/
def res_cache : ReqResult → Option Cache
  | .ok (_, c, _) => some c
  | .error _ => none

/-- The exception a handler run raised, if any. -/
def res_error : ReqResult → Option PyErr
  | .ok _ => none
  | .error e => some e

/-- A header of the returned response. -/
def resp_header (r : ReqResult) (k : String) : Option String :=
  (res_resp r).bind (fun x => hGet x.headers k)

/-- A header of the i-th outbound call of a run. -/
def call_header (r : ReqResult) (i : Nat) (k : String) : Option String :=
  ((res_calls r).get? i).bind (fun c => hGet c.headers k)

/-! Basic lemmas about the dict and cache operations. -/

theorem hGet_hSet_self (hs : Headers) (k v : String) : hGet (hSet hs k v) k = some v := by
  induction hs with
  | nil => simp [hSet, hGet]
  | cons p t ih =>
    obtain ⟨k0, v0⟩ := p
    by_cases h : k0 = k
    · simp [hSet, hGet, h]
    · simp [hSet, hGet, h, ih]

theorem hGet_hSet_ne (hs : Headers) (k v k' : String) (h : k' ≠ k) :
    hGet (hSet hs k v) k' = hGet hs k' := by
  induction hs with
  | nil => simp [hSet, hGet, Ne.symm h]
  | cons p t ih =>
    obtain ⟨k0, v0⟩ := p
    by_cases h0 : k0 = k
    · subst h0
      simp [hSet, hGet, Ne.symm h]
    · simp [hSet, hGet, h0, ih]

theorem hGet_hDel_self (hs : Headers) (k : String) : hGet (hDel hs k) k = none := by
  induction hs with
  | nil => simp [hDel, hGet]
  | cons p t ih =>
    obtain ⟨k0, v0⟩ := p
    by_cases h : k0 = k
    · simp [hDel, h, ih]
    · simp [hDel, hGet, h, ih]

theorem hGet_hDel_ne (hs : Headers) (k k' : String) (h : k' ≠ k) :
    hGet (hDel hs k) k' = hGet hs k' := by
  induction hs with
  | nil => simp [hDel]
  | cons p t ih =>
    obtain ⟨k0, v0⟩ := p
    by_cases h0 : k0 = k
    · subst h0
      simp [hDel, hGet, Ne.symm h, ih]
    · simp [hDel, hGet, h0, ih]

theorem cacheGet_cacheSet_self (c : Cache) (k : CacheKey) (r : Response) :
    cacheGet (cacheSet c k r) k = some r := by
  induction c with
  | nil => simp [cacheSet, cacheGet]
  | cons p t ih =>
    obtain ⟨k0, v0⟩ := p
    by_cases h : k0 = k
    · simp [cacheSet, cacheGet, h]
    · simp [cacheSet, cacheGet, h, ih]

theorem cacheGet_cacheSet_ne (c : Cache) (k k' : CacheKey) (r : Response) (h : k' ≠ k) :
    cacheGet (cacheSet c k r) k' = cacheGet c k' := by
  induction c with
  | nil => simp [cacheSet, cacheGet, Ne.symm h]
  | cons p t ih =>
    obtain ⟨k0, v0⟩ := p
    by_cases h0 : k0 = k
    · subst h0
      simp [cacheSet, cacheGet, Ne.symm h]
    · simp [cacheSet, cacheGet, h0, ih]

theorem conditional_headers_etag (hs : Headers) (cr : Response) (e : String)
    (he : hGet cr.headers "ETag" = some e) :
    hGet (conditional_headers hs (some cr)) "If-None-Match" = some e := by
  simp only [conditional_headers, he]
  cases hlm : hGet cr.headers "Last-Modified" with
  | none => exact hGet_hSet_self hs "If-None-Match" e
  | some lm =>
    rw [hGet_hSet_ne _ "If-Modified-Since" lm "If-None-Match" (by decide)]
    exact hGet_hSet_self hs "If-None-Match" e

theorem conditional_headers_lm (hs : Headers) (cr : Response) (lm : String)
    (hlm : hGet cr.headers "Last-Modified" = some lm) :
    hGet (conditional_headers hs (some cr)) "If-Modified-Since" = some lm := by
  simp only [conditional_headers, hlm]
  cases he : hGet cr.headers "ETag" <;> exact hGet_hSet_self _ "If-Modified-Since" lm

theorem hPop_error (hs : Headers) (k : String) (e : PyErr)
    (h : hPop hs k = .error e) : e = .keyError k := by
  unfold hPop at h
  cases hg : hGet hs k <;> rw [hg] at h <;> simp at h
  exact h.symm

theorem get_elements_per_page_error (qp : Option Params) (e : PyErr)
    (h : get_elements_per_page qp = .error e) : e = .valueError := by
  cases qp with
  | none => simp [get_elements_per_page] at h
  | some ps =>
    simp only [get_elements_per_page] at h
    cases hg : hGet ps "per_page" with
    | none => rw [hg] at h; simp at h
    | some s =>
      rw [hg] at h
      simp only [pyInt] at h
      cases hi : pyIntChars s.data with
      | none => rw [hi] at h; simp at h; exact h.symm
      | some n => rw [hi] at h; simp at h

theorem offline_request_calls (sha1 : String → String) (method url : String)
    (auth : Option String) (cache : Cache) (ec : Nat) (em : String) :
    (offline_request sha1 method url auth cache ec em).2.2 = [] := by
  unfold offline_request
  by_cases hm : method ≠ "GET"
  · rw [if_pos hm]
  · rw [if_neg hm]
    cases cacheGet cache (url, auth_fingerprint sha1 auth) <;> rfl

/-! Claim theorems. -/

/-- C3: for every GET request with a stored cache entry whose cached body
element count is strictly less than the effective page size, a 304 upstream
response makes the online handler return the cached response without
re-fetching (exactly one outbound call), with diagnostic ONLINE_HIT and body
identical to the stored entry. -/
theorem C3_hit_on_short_page
    (t : Transport) (sha1 : String → String) (PP : Nat) (url : String)
    (auth data : Option String) (qp : Option Params) (cache : Cache)
    (pp0 : Option Int) (cr resp : Response)
    (hp : get_elements_per_page qp = .ok pp0)
    (hc : cacheGet cache (url, auth_fingerprint sha1 auth) = some cr)
    (ht : t "GET" url (conditional_headers (auth_headers auth) (some cr)) none
            (params_of PP qp pp0) = resp)
    (h304 : resp.status_code = 304)
    (hlt : (cr.json_len : Int) < per_page_of PP pp0) :
    online_request t sha1 PP "GET" url auth data qp cache =
      .ok (set_x_cache cr "ONLINE_HIT",
           cacheSet cache (url, auth_fingerprint sha1 auth) (set_x_cache cr "ONLINE_HIT"),
           [⟨"GET", url, conditional_headers (auth_headers auth) (some cr), none,
              params_of PP qp pp0⟩])
    ∧ hGet (set_x_cache cr "ONLINE_HIT").headers "X-Cache" = some "ONLINE_HIT"
    ∧ (set_x_cache cr "ONLINE_HIT").text = cr.text := by
  refine ⟨?_, ?_, rfl⟩
  · unfold online_request
    rw [hp]
    dsimp only
    rw [hc, ht]
    dsimp only
    rw [if_neg (by simp), if_pos h304, if_neg (by rintro ⟨h1, h2⟩; omega)]
  · unfold set_x_cache
    exact hGet_hSet_self cr.headers "X-Cache" "ONLINE_HIT"

/-- C3 witness: a concrete stored entry of one element with page size 30
receives a 304 and is served as an ONLINE_HIT without a second call. -/
theorem C3_hit_on_short_page_witness :
    online_request (fun _ _ _ _ _ => ⟨304, [], "", 0, []⟩) (fun s => s) 30 "GET" "u"
        none none none [(("u", none), ⟨200, [("ETag", "e1")], "[1]", 1, []⟩)] =
      .ok (set_x_cache ⟨200, [("ETag", "e1")], "[1]", 1, []⟩ "ONLINE_HIT",
           cacheSet [(("u", none), ⟨200, [("ETag", "e1")], "[1]", 1, []⟩)] ("u", none)
             (set_x_cache ⟨200, [("ETag", "e1")], "[1]", 1, []⟩ "ONLINE_HIT"),
           [⟨"GET", "u",
              conditional_headers (auth_headers none)
                (some ⟨200, [("ETag", "e1")], "[1]", 1, []⟩),
              none, params_of 30 none none⟩])
    ∧ hGet (set_x_cache (⟨200, [("ETag", "e1")], "[1]", 1, []⟩ : Response) "ONLINE_HIT").headers
        "X-Cache" = some "ONLINE_HIT"
    ∧ (set_x_cache (⟨200, [("ETag", "e1")], "[1]", 1, []⟩ : Response) "ONLINE_HIT").text =
        (⟨200, [("ETag", "e1")], "[1]", 1, []⟩ : Response).text :=
  C3_hit_on_short_page _ _ _ _ _ _ _ _ _ _ _ rfl rfl rfl rfl (by decide)

/-- C5: a response handed to the caching routine is stored under the cache key
if and only if its status is 200 and it carries at least one of ETag and
Last-Modified; the store fully replaces the prior entry for the key and leaves
every other key untouched. -/
theorem C5_cache_storage_policy (resp : Response) (cache : Cache) (key : CacheKey) :
    (resp.status_code = 200 ∧
        ((hGet resp.headers "ETag").isSome ∨ (hGet resp.headers "Last-Modified").isSome) →
      cache_response resp cache key = cacheSet cache key resp
      ∧ cacheGet (cache_response resp cache key) key = some resp
      ∧ ∀ k', k' ≠ key → cacheGet (cache_response resp cache key) k' = cacheGet cache k')
    ∧ (¬(resp.status_code = 200 ∧
        ((hGet resp.headers "ETag").isSome ∨ (hGet resp.headers "Last-Modified").isSome)) →
      cache_response resp cache key = cache) := by
  constructor
  · intro h
    unfold cache_response
    rw [if_pos h]
    exact ⟨rfl, cacheGet_cacheSet_self cache key resp,
           fun k' hk => cacheGet_cacheSet_ne cache key k' resp hk⟩
  · intro h
    unfold cache_response
    rw [if_neg h]

/-- C5 witness: a 200 response with an ETag is stored and retrievable; a 200
response lacking both validator headers leaves the cache unchanged. -/
theorem C5_cache_storage_policy_witness :
    cacheGet (cache_response (⟨200, [("ETag", "e")], "", 0, []⟩ : Response) [] ("u", none))
        ("u", none) = some ⟨200, [("ETag", "e")], "", 0, []⟩
    ∧ cache_response (⟨200, [], "", 0, []⟩ : Response) [] ("u", none) = [] :=
  ⟨((C5_cache_storage_policy _ _ _).1 (by decide)).2.1,
   (C5_cache_storage_policy _ _ _).2 (by decide)⟩

/-- C6 counterexample: offline with an empty cache, a GET is answered with the
gateway-timeout JSON followed by a trailing newline, so the body is not exactly
the bare JSON object the claim states. -/
theorem C6_counterexample :
    ¬ ((res_resp (conditional_request (fun _ _ _ _ _ => ⟨200, [], "", 0, []⟩)
          (fun s => s) 30 false "GET" "u" none none none [])).map (fun r => r.text)
        = some "\x7b\"message\": \"gateway timeout\"\x7d")
    ∧ (res_resp (conditional_request (fun _ _ _ _ _ => ⟨200, [], "", 0, []⟩)
          (fun s => s) 30 false "GET" "u" none none none [])).map (fun r => r.text)
        = some "\x7b\"message\": \"gateway timeout\"\x7d\n" := by
  constructor
  · decide
  · decide

/-- C6 amended: for every GET request dispatched while offline whose cache key
has no stored entry, the handler returns (never raises) a synthesized response
with status 504, body the gateway-timeout JSON object followed by a newline,
and diagnostic OFFLINE_MISS, leaving the cache unchanged and making no
outbound call. -/
theorem C6_offline_miss
    (t : Transport) (sha1 : String → String) (PP : Nat) (url : String)
    (auth data : Option String) (qp : Option Params) (cache : Cache)
    (h : cacheGet cache (url, auth_fingerprint sha1 auth) = none) :
    conditional_request t sha1 PP false "GET" url auth data qp cache =
      .ok (offline_error_response DEFAULT_ERROR_CODE DEFAULT_ERROR_MESSAGE, cache, [])
    ∧ (offline_error_response DEFAULT_ERROR_CODE DEFAULT_ERROR_MESSAGE).status_code = 504
    ∧ (offline_error_response DEFAULT_ERROR_CODE DEFAULT_ERROR_MESSAGE).text =
        "\x7b\"message\": \"gateway timeout\"\x7d\n"
    ∧ hGet (offline_error_response DEFAULT_ERROR_CODE DEFAULT_ERROR_MESSAGE).headers
        "X-Cache" = some "OFFLINE_MISS" := by
  refine ⟨?_, rfl, rfl, rfl⟩
  unfold conditional_request
  rw [if_neg (by simp)]
  unfold offline_request
  rw [if_neg (by simp)]
  rw [h]

/-- C6 witness: the amended statement at a concrete empty cache. -/
theorem C6_offline_miss_witness :
    conditional_request (fun _ _ _ _ _ => ⟨200, [], "", 0, []⟩) (fun s => s) 30 false
        "GET" "u" none none none [] =
      .ok (offline_error_response DEFAULT_ERROR_CODE DEFAULT_ERROR_MESSAGE, [], [])
    ∧ (offline_error_response DEFAULT_ERROR_CODE DEFAULT_ERROR_MESSAGE).status_code = 504
    ∧ (offline_error_response DEFAULT_ERROR_CODE DEFAULT_ERROR_MESSAGE).text =
        "\x7b\"message\": \"gateway timeout\"\x7d\n"
    ∧ hGet (offline_error_response DEFAULT_ERROR_CODE DEFAULT_ERROR_MESSAGE).headers
        "X-Cache" = some "OFFLINE_MISS" :=
  C6_offline_miss _ _ _ _ _ _ _ _ rfl

/-- C7: for every online non-GET request, the handler forwards the request with
the authorization headers, returns the upstream response tagged ONLINE_MISS,
returns the cache unchanged, and neither the response nor the call log depends
on the cache contents. -/
theorem C7_non_get_forward
    (t : Transport) (sha1 : String → String) (PP : Nat) (method url : String)
    (auth data : Option String) (qp : Option Params) (cache : Cache)
    (pp0 : Option Int)
    (hm : method ≠ "GET")
    (hp : get_elements_per_page qp = .ok pp0) :
    online_request t sha1 PP method url auth data qp cache =
      .ok (set_x_cache (t method url (auth_headers auth) data (params_of PP qp pp0))
             "ONLINE_MISS",
           cache,
           [⟨method, url, auth_headers auth, data, params_of PP qp pp0⟩])
    ∧ hGet (set_x_cache (t method url (auth_headers auth) data (params_of PP qp pp0))
          "ONLINE_MISS").headers "X-Cache" = some "ONLINE_MISS"
    ∧ ∀ cache2 : Cache,
        res_resp (online_request t sha1 PP method url auth data qp cache2) =
          res_resp (online_request t sha1 PP method url auth data qp cache)
        ∧ res_calls (online_request t sha1 PP method url auth data qp cache2) =
          res_calls (online_request t sha1 PP method url auth data qp cache) := by
  have key : ∀ c : Cache, online_request t sha1 PP method url auth data qp c =
      .ok (set_x_cache (t method url (auth_headers auth) data (params_of PP qp pp0))
             "ONLINE_MISS",
           c,
           [⟨method, url, auth_headers auth, data, params_of PP qp pp0⟩]) := by
    intro c
    unfold online_request
    rw [hp]
    dsimp only
    rw [if_pos hm]
  refine ⟨key cache, ?_, ?_⟩
  · unfold set_x_cache
    exact hGet_hSet_self _ "X-Cache" "ONLINE_MISS"
  · intro c2
    rw [key c2, key cache]
    exact ⟨rfl, rfl⟩

/-- C7 witness: a concrete POST is forwarded as ONLINE_MISS with the cache
unchanged, and its response is the same under a different cache. -/
theorem C7_non_get_forward_witness :
    online_request (fun _ _ _ _ _ => ⟨201, [], "done", 0, []⟩) (fun s => s) 30 "POST" "u"
        none (some "payload") none [] =
      .ok (set_x_cache ((fun (_ : String) (_ : String) (_ : Headers) (_ : Option String)
              (_ : Params) => (⟨201, [], "done", 0, []⟩ : Response)) "POST" "u"
              (auth_headers none) (some "payload") (params_of 30 none none)) "ONLINE_MISS",
           [],
           [⟨"POST", "u", auth_headers none, some "payload", params_of 30 none none⟩])
    ∧ res_resp (online_request (fun _ _ _ _ _ => ⟨201, [], "done", 0, []⟩) (fun s => s) 30
          "POST" "u" none (some "payload") none [(("u", none), ⟨200, [], "x", 0, []⟩)]) =
        res_resp (online_request (fun _ _ _ _ _ => ⟨201, [], "done", 0, []⟩) (fun s => s) 30
          "POST" "u" none (some "payload") none []) :=
  ⟨(C7_non_get_forward _ _ _ _ _ _ _ none _ none (by decide) rfl).1,
   ((C7_non_get_forward _ _ _ _ _ _ _ none _ none (by decide) rfl).2.2
      [(("u", none), ⟨200, [], "x", 0, []⟩)]).1⟩

/-- C8: for every request dispatched while the upstream-health flag is false,
the result does not depend on the transport at all and the outbound call log
is empty: the offline routine never invokes the transport, regardless of
method or cache contents. -/
theorem C8_offline_never_calls_transport
    (t1 t2 : Transport) (sha1 : String → String) (PP : Nat) (method url : String)
    (auth data : Option String) (qp : Option Params) (cache : Cache) :
    conditional_request t1 sha1 PP false method url auth data qp cache =
      conditional_request t2 sha1 PP false method url auth data qp cache
    ∧ res_calls (conditional_request t1 sha1 PP false method url auth data qp cache) = [] := by
  constructor
  · rfl
  · unfold conditional_request
    rw [if_neg (by simp)]
    unfold res_calls
    rw [← offline_request_calls sha1 method url auth cache DEFAULT_ERROR_CODE
          DEFAULT_ERROR_MESSAGE]

/-- C4: for every online GET whose upstream answer is a 403 containing one of
the fixed rate-limit phrases, the handler serves the cached entry with
diagnostic RATE_LIMITED_HIT when one exists, and otherwise returns the
upstream 403 unchanged except for the RATE_LIMITED_MISS diagnostic; a response
lacking every phrase is never classified as rate limited. -/
theorem C4_rate_limited
    (t : Transport) (sha1 : String → String) (PP : Nat) (url : String)
    (auth data : Option String) (qp : Option Params) (cache : Cache)
    (pp0 : Option Int) (resp : Response)
    (hp : get_elements_per_page qp = .ok pp0)
    (ht : t "GET" url (conditional_headers (auth_headers auth)
            (cacheGet cache (url, auth_fingerprint sha1 auth))) none
            (params_of PP qp pp0) = resp)
    (h403 : resp.status_code = 403)
    (hmsg : ∃ m ∈ rate_limit_messages, strContains resp.text m = true) :
    (∀ cr : Response, cacheGet cache (url, auth_fingerprint sha1 auth) = some cr →
       online_request t sha1 PP "GET" url auth data qp cache =
         .ok (set_x_cache cr "RATE_LIMITED_HIT",
              cacheSet cache (url, auth_fingerprint sha1 auth)
                (set_x_cache cr "RATE_LIMITED_HIT"),
              [⟨"GET", url, conditional_headers (auth_headers auth) (some cr), none,
                 params_of PP qp pp0⟩])
       ∧ hGet (set_x_cache cr "RATE_LIMITED_HIT").headers "X-Cache" =
           some "RATE_LIMITED_HIT"
       ∧ (set_x_cache cr "RATE_LIMITED_HIT").text = cr.text)
    ∧ (cacheGet cache (url, auth_fingerprint sha1 auth) = none →
       online_request t sha1 PP "GET" url auth data qp cache =
         .ok (set_x_cache resp "RATE_LIMITED_MISS", cache,
              [⟨"GET", url, conditional_headers (auth_headers auth) none, none,
                 params_of PP qp pp0⟩])
       ∧ hGet (set_x_cache resp "RATE_LIMITED_MISS").headers "X-Cache" =
           some "RATE_LIMITED_MISS"
       ∧ (set_x_cache resp "RATE_LIMITED_MISS").text = resp.text
       ∧ (set_x_cache resp "RATE_LIMITED_MISS").status_code = resp.status_code)
    ∧ (∀ r : Response, (∀ m ∈ rate_limit_messages, strContains r.text m = false) →
         should_serve_from_cache r = false) := by
  have hss : should_serve_from_cache resp = true := by
    obtain ⟨m, hm, hsm⟩ := hmsg
    unfold should_serve_from_cache
    rw [Bool.and_eq_true]
    constructor
    · simp [h403]
    · rw [List.any_eq_true]
      exact ⟨m, hm, hsm⟩
  refine ⟨?_, ?_, ?_⟩
  · intro cr hcr
    rw [hcr] at ht
    refine ⟨?_, ?_, rfl⟩
    · unfold online_request
      rw [hp]
      dsimp only
      rw [hcr, ht]
      dsimp only
      rw [if_neg (by simp), if_neg (by omega), if_pos hss]
    · unfold set_x_cache
      exact hGet_hSet_self _ "X-Cache" "RATE_LIMITED_HIT"
  · intro hnone
    rw [hnone] at ht
    refine ⟨?_, ?_, rfl, rfl⟩
    · unfold online_request
      rw [hp]
      dsimp only
      rw [hnone, ht]
      dsimp only
      rw [if_neg (by simp), if_neg (by omega), if_pos hss]
    · unfold set_x_cache
      exact hGet_hSet_self _ "X-Cache" "RATE_LIMITED_MISS"
  · intro r hr
    cases hss2 : should_serve_from_cache r with
    | false => rfl
    | true =>
      exfalso
      unfold should_serve_from_cache at hss2
      rw [Bool.and_eq_true, List.any_eq_true] at hss2
      obtain ⟨-, m, hm, hsm⟩ := hss2
      rw [hr m hm] at hsm
      exact Bool.false_ne_true hsm

/-- C4 witness: a concrete rate-limited 403 is served from the cache as a
RATE_LIMITED_HIT when an entry exists and forwarded as RATE_LIMITED_MISS when
the cache is empty. -/
theorem C4_rate_limited_witness :
    online_request (fun _ _ _ _ _ => ⟨403, [], "API rate limit exceeded", 0, []⟩)
        (fun s => s) 30 "GET" "u" none none none
        [(("u", none), ⟨200, [("ETag", "e1")], "[1]", 1, []⟩)] =
      .ok (set_x_cache ⟨200, [("ETag", "e1")], "[1]", 1, []⟩ "RATE_LIMITED_HIT",
           cacheSet [(("u", none), ⟨200, [("ETag", "e1")], "[1]", 1, []⟩)] ("u", none)
             (set_x_cache ⟨200, [("ETag", "e1")], "[1]", 1, []⟩ "RATE_LIMITED_HIT"),
           [⟨"GET", "u",
              conditional_headers (auth_headers none)
                (some ⟨200, [("ETag", "e1")], "[1]", 1, []⟩),
              none, params_of 30 none none⟩])
    ∧ online_request (fun _ _ _ _ _ => ⟨403, [], "API rate limit exceeded", 0, []⟩)
        (fun s => s) 30 "GET" "u" none none none [] =
      .ok (set_x_cache ⟨403, [], "API rate limit exceeded", 0, []⟩ "RATE_LIMITED_MISS", [],
           [⟨"GET", "u", conditional_headers (auth_headers none) none, none,
              params_of 30 none none⟩]) :=
  ⟨((C4_rate_limited (fun _ _ _ _ _ => ⟨403, [], "API rate limit exceeded", 0, []⟩)
      (fun s => s) 30 "u" none none none
      [(("u", none), ⟨200, [("ETag", "e1")], "[1]", 1, []⟩)] none
      ⟨403, [], "API rate limit exceeded", 0, []⟩ rfl rfl rfl
      ⟨"API rate limit exceeded", by decide, by decide⟩).1
      ⟨200, [("ETag", "e1")], "[1]", 1, []⟩ rfl).1,
   ((C4_rate_limited (fun _ _ _ _ _ => ⟨403, [], "API rate limit exceeded", 0, []⟩)
      (fun s => s) 30 "u" none none none [] none
      ⟨403, [], "API rate limit exceeded", 0, []⟩ rfl rfl rfl
      ⟨"API rate limit exceeded", by decide, by decide⟩).2.1 rfl).1⟩

/-- C1 counterexample: with a cached entry carrying both ETag and
Last-Modified, the full-page 304 edge case does re-issue the request and
returns ONLINE_MISS, but the re-issued request still carries If-Modified-Since,
so not every conditional header is removed as the claim states. -/
theorem C1_counterexample :
    call_header (online_request
        (fun _ _ h _ _ => if hGet h "If-None-Match" = some "e1" then ⟨304, [], "", 0, []⟩
          else ⟨200, [("ETag", "e2")], "[2]", 1, []⟩)
        (fun s => s) 30 "GET" "u" none none (some [("per_page", "1")])
        [(("u", none), ⟨200, [("ETag", "e1"), ("Last-Modified", "lm1")], "[1]", 1, []⟩)])
      1 "If-Modified-Since" = some "lm1"
    ∧ ¬ call_header (online_request
        (fun _ _ h _ _ => if hGet h "If-None-Match" = some "e1" then ⟨304, [], "", 0, []⟩
          else ⟨200, [("ETag", "e2")], "[2]", 1, []⟩)
        (fun s => s) 30 "GET" "u" none none (some [("per_page", "1")])
        [(("u", none), ⟨200, [("ETag", "e1"), ("Last-Modified", "lm1")], "[1]", 1, []⟩)])
      1 "If-Modified-Since" = none
    ∧ (res_calls (online_request
        (fun _ _ h _ _ => if hGet h "If-None-Match" = some "e1" then ⟨304, [], "", 0, []⟩
          else ⟨200, [("ETag", "e2")], "[2]", 1, []⟩)
        (fun s => s) 30 "GET" "u" none none (some [("per_page", "1")])
        [(("u", none), ⟨200, [("ETag", "e1"), ("Last-Modified", "lm1")], "[1]", 1, []⟩)])).length = 2
    ∧ resp_header (online_request
        (fun _ _ h _ _ => if hGet h "If-None-Match" = some "e1" then ⟨304, [], "", 0, []⟩
          else ⟨200, [("ETag", "e2")], "[2]", 1, []⟩)
        (fun s => s) 30 "GET" "u" none none (some [("per_page", "1")])
        [(("u", none), ⟨200, [("ETag", "e1"), ("Last-Modified", "lm1")], "[1]", 1, []⟩)])
      "X-Cache" = some "ONLINE_MISS" := by
  refine ⟨?_, ?_, ?_, ?_⟩ <;> decide

/-- C1 amended: in the full-page no-next-link 304 edge case, when the cached
entry carries an ETag and a Last-Modified, the handler re-issues the request
with only If-None-Match removed — If-Modified-Since remains attached — treats
the result as a fresh miss, applies the standard caching policy to it, and
returns it with diagnostic ONLINE_MISS. -/
theorem C1_refetch_drops_only_etag
    (t : Transport) (sha1 : String → String) (PP : Nat) (url : String)
    (auth data : Option String) (qp : Option Params) (cache : Cache)
    (pp0 : Option Int) (cr resp : Response) (e lm : String)
    (hp : get_elements_per_page qp = .ok pp0)
    (hc : cacheGet cache (url, auth_fingerprint sha1 auth) = some cr)
    (he : hGet cr.headers "ETag" = some e)
    (hlm : hGet cr.headers "Last-Modified" = some lm)
    (ht : t "GET" url (conditional_headers (auth_headers auth) (some cr)) none
            (params_of PP qp pp0) = resp)
    (h304 : resp.status_code = 304)
    (hC : (cr.json_len : Int) = per_page_of PP pp0 ∧ cr.links = []) :
    online_request t sha1 PP "GET" url auth data qp cache =
      .ok (set_x_cache (t "GET" url
              (hDel (conditional_headers (auth_headers auth) (some cr)) "If-None-Match")
              none (params_of PP qp pp0)) "ONLINE_MISS",
           cache_response
             (set_x_cache (t "GET" url
                (hDel (conditional_headers (auth_headers auth) (some cr)) "If-None-Match")
                none (params_of PP qp pp0)) "ONLINE_MISS")
             cache (url, auth_fingerprint sha1 auth),
           [⟨"GET", url, conditional_headers (auth_headers auth) (some cr), none,
              params_of PP qp pp0⟩,
            ⟨"GET", url,
              hDel (conditional_headers (auth_headers auth) (some cr)) "If-None-Match",
              none, params_of PP qp pp0⟩])
    ∧ hGet (hDel (conditional_headers (auth_headers auth) (some cr)) "If-None-Match")
        "If-None-Match" = none
    ∧ hGet (hDel (conditional_headers (auth_headers auth) (some cr)) "If-None-Match")
        "If-Modified-Since" = some lm
    ∧ hGet (set_x_cache (t "GET" url
          (hDel (conditional_headers (auth_headers auth) (some cr)) "If-None-Match")
          none (params_of PP qp pp0)) "ONLINE_MISS").headers "X-Cache" =
        some "ONLINE_MISS" := by
  refine ⟨?_, hGet_hDel_self _ "If-None-Match", ?_, ?_⟩
  · unfold online_request
    rw [hp]
    dsimp only
    rw [hc, ht]
    dsimp only
    rw [if_neg (by simp), if_pos h304, if_pos hC]
    unfold hPop
    rw [conditional_headers_etag (auth_headers auth) cr e he]
  · rw [hGet_hDel_ne _ "If-None-Match" "If-Modified-Since" (by decide)]
    exact conditional_headers_lm (auth_headers auth) cr lm hlm
  · unfold set_x_cache
    exact hGet_hSet_self _ "X-Cache" "ONLINE_MISS"

/-- C1 witness: the amended statement at a concrete cached entry carrying both
validators, with page size 1 and a 304 first answer. -/
theorem C1_refetch_drops_only_etag_witness :
    online_request
        (fun _ _ h _ _ => if hGet h "If-None-Match" = some "e1" then ⟨304, [], "", 0, []⟩
          else ⟨200, [("ETag", "e2")], "[2]", 1, []⟩)
        (fun s => s) 30 "GET" "u" none none (some [("per_page", "1")])
        [(("u", none), ⟨200, [("ETag", "e1"), ("Last-Modified", "lm1")], "[1]", 1, []⟩)] =
      .ok (set_x_cache ((fun (_ : String) (_ : String) (h : Headers) (_ : Option String)
              (_ : Params) => if hGet h "If-None-Match" = some "e1" then
                (⟨304, [], "", 0, []⟩ : Response)
              else ⟨200, [("ETag", "e2")], "[2]", 1, []⟩) "GET" "u"
              (hDel (conditional_headers (auth_headers none)
                (some ⟨200, [("ETag", "e1"), ("Last-Modified", "lm1")], "[1]", 1, []⟩))
                "If-None-Match")
              none (params_of 30 (some [("per_page", "1")]) (some 1))) "ONLINE_MISS",
           cache_response
             (set_x_cache ((fun (_ : String) (_ : String) (h : Headers) (_ : Option String)
                (_ : Params) => if hGet h "If-None-Match" = some "e1" then
                  (⟨304, [], "", 0, []⟩ : Response)
                else ⟨200, [("ETag", "e2")], "[2]", 1, []⟩) "GET" "u"
                (hDel (conditional_headers (auth_headers none)
                  (some ⟨200, [("ETag", "e1"), ("Last-Modified", "lm1")], "[1]", 1, []⟩))
                  "If-None-Match")
                none (params_of 30 (some [("per_page", "1")]) (some 1))) "ONLINE_MISS")
             [(("u", none), ⟨200, [("ETag", "e1"), ("Last-Modified", "lm1")], "[1]", 1, []⟩)]
             ("u", none),
           [⟨"GET", "u",
              conditional_headers (auth_headers none)
                (some ⟨200, [("ETag", "e1"), ("Last-Modified", "lm1")], "[1]", 1, []⟩),
              none, params_of 30 (some [("per_page", "1")]) (some 1)⟩,
            ⟨"GET", "u",
              hDel (conditional_headers (auth_headers none)
                (some ⟨200, [("ETag", "e1"), ("Last-Modified", "lm1")], "[1]", 1, []⟩))
                "If-None-Match",
              none, params_of 30 (some [("per_page", "1")]) (some 1)⟩])
    ∧ hGet (hDel (conditional_headers (auth_headers none)
        (some ⟨200, [("ETag", "e1"), ("Last-Modified", "lm1")], "[1]", 1, []⟩))
        "If-None-Match") "If-None-Match" = none
    ∧ hGet (hDel (conditional_headers (auth_headers none)
        (some ⟨200, [("ETag", "e1"), ("Last-Modified", "lm1")], "[1]", 1, []⟩))
        "If-None-Match") "If-Modified-Since" = some "lm1"
    ∧ hGet (set_x_cache ((fun (_ : String) (_ : String) (h : Headers) (_ : Option String)
          (_ : Params) => if hGet h "If-None-Match" = some "e1" then
            (⟨304, [], "", 0, []⟩ : Response)
          else ⟨200, [("ETag", "e2")], "[2]", 1, []⟩) "GET" "u"
          (hDel (conditional_headers (auth_headers none)
            (some ⟨200, [("ETag", "e1"), ("Last-Modified", "lm1")], "[1]", 1, []⟩))
            "If-None-Match")
          none (params_of 30 (some [("per_page", "1")]) (some 1))) "ONLINE_MISS").headers
        "X-Cache" = some "ONLINE_MISS" :=
  C1_refetch_drops_only_etag
    (fun _ _ h _ _ => if hGet h "If-None-Match" = some "e1" then ⟨304, [], "", 0, []⟩
      else ⟨200, [("ETag", "e2")], "[2]", 1, []⟩)
    (fun s => s) 30 "u" none none (some [("per_page", "1")])
    [(("u", none), ⟨200, [("ETag", "e1"), ("Last-Modified", "lm1")], "[1]", 1, []⟩)]
    (some 1) ⟨200, [("ETag", "e1"), ("Last-Modified", "lm1")], "[1]", 1, []⟩
    ⟨304, [], "", 0, []⟩ "e1" "lm1"
    rfl rfl rfl rfl rfl rfl (by decide)

/-- C2 counterexample, two concrete inputs. First, a stored entry with only
Last-Modified (no ETag) whose body length equals the page size and which has
no links receives a 304: the claim says this triggers the ONLINE_MISS
re-fetch, but the code raises KeyError while popping the absent If-None-Match
header and returns nothing. Second, a full-page entry whose only pagination
link is a prev relation (so it carries no next link) receives a 304: the claim
demands the ONLINE_MISS re-fetch, but the code tests emptiness of all parsed
links, finds the prev link, and serves the entry as ONLINE_HIT with a single
outbound call. -/
theorem C2_counterexample :
    res_error (online_request (fun _ _ _ _ _ => ⟨304, [], "", 0, []⟩) (fun s => s) 30
        "GET" "u" none none (some [("per_page", "1")])
        [(("u", none), ⟨200, [("Last-Modified", "lm1")], "[1]", 1, []⟩)]) =
      some (.keyError "If-None-Match")
    ∧ res_resp (online_request (fun _ _ _ _ _ => ⟨304, [], "", 0, []⟩) (fun s => s) 30
        "GET" "u" none none (some [("per_page", "1")])
        [(("u", none), ⟨200, [("Last-Modified", "lm1")], "[1]", 1, []⟩)]) = none
    ∧ resp_header (online_request (fun _ _ _ _ _ => ⟨304, [], "", 0, []⟩) (fun s => s) 30
        "GET" "u" none none (some [("per_page", "1")])
        [(("u", none), ⟨200, [("ETag", "e1")], "[1]", 1, ["prev"]⟩)]) "X-Cache" =
      some "ONLINE_HIT"
    ∧ (res_calls (online_request (fun _ _ _ _ _ => ⟨304, [], "", 0, []⟩) (fun s => s) 30
        "GET" "u" none none (some [("per_page", "1")])
        [(("u", none), ⟨200, [("ETag", "e1")], "[1]", 1, ["prev"]⟩)])).length = 1
    ∧ ¬ resp_header (online_request (fun _ _ _ _ _ => ⟨304, [], "", 0, []⟩) (fun s => s) 30
        "GET" "u" none none (some [("per_page", "1")])
        [(("u", none), ⟨200, [("ETag", "e1")], "[1]", 1, ["prev"]⟩)]) "X-Cache" =
      some "ONLINE_MISS" := by
  refine ⟨?_, ?_, ?_, ?_, ?_⟩ <;> decide

/-- C2 amended: for a stored entry that carries an ETag, a 304 triggers the
stale-page re-fetch (two outbound calls, diagnostic ONLINE_MISS) exactly when
the cached body element count equals the effective page size and the entry
carries no pagination links at all (the code tests emptiness of the parsed
Link relations, not merely the absence of a next link), and otherwise serves
the entry as ONLINE_HIT with one call; the effective page size agrees with
the spec-side definition (per-page parameter parsed as an integer when
present, else the configured default). When the edge condition holds for an
entry without ETag the handler instead raises KeyError. -/
theorem C2_refetch_condition
    (t : Transport) (sha1 : String → String) (PP : Nat) (url : String)
    (auth data : Option String) (qp : Option Params) (cache : Cache)
    (pp0 : Option Int) (cr resp : Response) (e : String)
    (hp : get_elements_per_page qp = .ok pp0)
    (hc : cacheGet cache (url, auth_fingerprint sha1 auth) = some cr)
    (he : hGet cr.headers "ETag" = some e)
    (ht : t "GET" url (conditional_headers (auth_headers auth) (some cr)) none
            (params_of PP qp pp0) = resp)
    (h304 : resp.status_code = 304) :
    ((cr.json_len : Int) = per_page_of PP pp0 ∧ cr.links = [] →
       res_calls (online_request t sha1 PP "GET" url auth data qp cache) =
         [⟨"GET", url, conditional_headers (auth_headers auth) (some cr), none,
            params_of PP qp pp0⟩,
          ⟨"GET", url,
            hDel (conditional_headers (auth_headers auth) (some cr)) "If-None-Match",
            none, params_of PP qp pp0⟩]
       ∧ resp_header (online_request t sha1 PP "GET" url auth data qp cache) "X-Cache" =
           some "ONLINE_MISS")
    ∧ (¬((cr.json_len : Int) = per_page_of PP pp0 ∧ cr.links = []) →
       res_calls (online_request t sha1 PP "GET" url auth data qp cache) =
         [⟨"GET", url, conditional_headers (auth_headers auth) (some cr), none,
            params_of PP qp pp0⟩]
       ∧ resp_header (online_request t sha1 PP "GET" url auth data qp cache) "X-Cache" =
           some "ONLINE_HIT")
    ∧ spec_effective_page_size PP qp = some (per_page_of PP pp0) := by
  refine ⟨?_, ?_, ?_⟩
  · intro hC
    have key : online_request t sha1 PP "GET" url auth data qp cache =
        .ok (set_x_cache (t "GET" url
              (hDel (conditional_headers (auth_headers auth) (some cr)) "If-None-Match")
              none (params_of PP qp pp0)) "ONLINE_MISS",
             cache_response
               (set_x_cache (t "GET" url
                 (hDel (conditional_headers (auth_headers auth) (some cr)) "If-None-Match")
                 none (params_of PP qp pp0)) "ONLINE_MISS")
               cache (url, auth_fingerprint sha1 auth),
             [⟨"GET", url, conditional_headers (auth_headers auth) (some cr), none,
                params_of PP qp pp0⟩,
              ⟨"GET", url,
                hDel (conditional_headers (auth_headers auth) (some cr)) "If-None-Match",
                none, params_of PP qp pp0⟩]) := by
      unfold online_request
      rw [hp]
      dsimp only
      rw [hc, ht]
      dsimp only
      rw [if_neg (by simp), if_pos h304, if_pos hC]
      unfold hPop
      rw [conditional_headers_etag (auth_headers auth) cr e he]
    rw [key]
    exact ⟨rfl, by simp [resp_header, res_resp, set_x_cache, hGet_hSet_self]⟩
  · intro hC
    have key : online_request t sha1 PP "GET" url auth data qp cache =
        .ok (set_x_cache cr "ONLINE_HIT",
             cacheSet cache (url, auth_fingerprint sha1 auth) (set_x_cache cr "ONLINE_HIT"),
             [⟨"GET", url, conditional_headers (auth_headers auth) (some cr), none,
                params_of PP qp pp0⟩]) := by
      unfold online_request
      rw [hp]
      dsimp only
      rw [hc, ht]
      dsimp only
      rw [if_neg (by simp), if_pos h304, if_neg hC]
    rw [key]
    exact ⟨rfl, by simp [resp_header, res_resp, set_x_cache, hGet_hSet_self]⟩
  · cases qp with
    | none =>
      simp only [get_elements_per_page] at hp
      simp only [Except.ok.injEq] at hp
      subst hp
      simp [spec_effective_page_size, per_page_of]
    | some ps =>
      simp only [get_elements_per_page] at hp
      cases hg : hGet ps "per_page" with
      | none =>
        rw [hg] at hp
        simp only [Except.ok.injEq] at hp
        subst hp
        simp [spec_effective_page_size, hg, per_page_of]
      | some s =>
        rw [hg] at hp
        simp only [pyInt] at hp
        cases hi : pyIntChars s.data with
        | none => rw [hi] at hp; simp at hp
        | some n =>
          rw [hi] at hp
          simp only [Except.ok.injEq] at hp
          subst hp
          simp [spec_effective_page_size, hg, pyInt, hi, per_page_of]

/-- C2 witness: with a concrete full-page no-link entry carrying an ETag and
page size 1, the 304 leads to two outbound calls and diagnostic ONLINE_MISS. -/
theorem C2_refetch_condition_witness :
    res_calls (online_request
        (fun _ _ h _ _ => if hGet h "If-None-Match" = some "e1" then ⟨304, [], "", 0, []⟩
          else ⟨200, [("ETag", "e2")], "[2]", 1, []⟩)
        (fun s => s) 30 "GET" "u" none none (some [("per_page", "1")])
        [(("u", none), ⟨200, [("ETag", "e1")], "[1]", 1, []⟩)]) =
      [⟨"GET", "u",
         conditional_headers (auth_headers none)
           (some ⟨200, [("ETag", "e1")], "[1]", 1, []⟩),
         none, params_of 30 (some [("per_page", "1")]) (some 1)⟩,
       ⟨"GET", "u",
         hDel (conditional_headers (auth_headers none)
           (some ⟨200, [("ETag", "e1")], "[1]", 1, []⟩)) "If-None-Match",
         none, params_of 30 (some [("per_page", "1")]) (some 1)⟩]
    ∧ resp_header (online_request
        (fun _ _ h _ _ => if hGet h "If-None-Match" = some "e1" then ⟨304, [], "", 0, []⟩
          else ⟨200, [("ETag", "e2")], "[2]", 1, []⟩)
        (fun s => s) 30 "GET" "u" none none (some [("per_page", "1")])
        [(("u", none), ⟨200, [("ETag", "e1")], "[1]", 1, []⟩)]) "X-Cache" =
      some "ONLINE_MISS" :=
  (C2_refetch_condition
    (fun _ _ h _ _ => if hGet h "If-None-Match" = some "e1" then ⟨304, [], "", 0, []⟩
      else ⟨200, [("ETag", "e2")], "[2]", 1, []⟩)
    (fun s => s) 30 "u" none none (some [("per_page", "1")])
    [(("u", none), ⟨200, [("ETag", "e1")], "[1]", 1, []⟩)]
    (some 1) ⟨200, [("ETag", "e1")], "[1]", 1, []⟩ ⟨304, [], "", 0, []⟩ "e1"
    rfl rfl rfl rfl rfl).1 (by decide)

/-- C9 counterexample: serving a concrete ONLINE_HIT rewrites the X-Cache
header of the stored object in place, so after the call the stored entry is no
longer identical to what was stored. -/
theorem C9_counterexample :
    (res_cache (online_request (fun _ _ _ _ _ => ⟨304, [], "", 0, []⟩) (fun s => s) 30
        "GET" "u" none none none
        [(("u", none), ⟨200, [("ETag", "e1"), ("X-Cache", "ONLINE_MISS")], "[1]", 1, []⟩)])).bind
      (fun c => cacheGet c ("u", none)) =
      some (set_x_cache ⟨200, [("ETag", "e1"), ("X-Cache", "ONLINE_MISS")], "[1]", 1, []⟩
        "ONLINE_HIT")
    ∧ ¬ (res_cache (online_request (fun _ _ _ _ _ => ⟨304, [], "", 0, []⟩) (fun s => s) 30
        "GET" "u" none none none
        [(("u", none), ⟨200, [("ETag", "e1"), ("X-Cache", "ONLINE_MISS")], "[1]", 1, []⟩)])).bind
      (fun c => cacheGet c ("u", none)) =
      some ⟨200, [("ETag", "e1"), ("X-Cache", "ONLINE_MISS")], "[1]", 1, []⟩ := by
  constructor
  · decide
  · decide

/-- C9 amended: every serve path mutates only the diagnostic. For any stored
entry and any diagnostic value, the body, status, element count, links and
every header other than X-Cache are unchanged by the header rewrite; serving
the entry as an online 304 hit (line 144), as a rate-limited hit (line 154)
or as an offline hit (line 210) overwrites the X-Cache header of the stored
object in place, after which the store holds exactly the served response; and
a re-store replaces the entry for the key wholesale, leaving other keys
untouched. -/
theorem C9_serve_mutates_only_diagnostic
    (t : Transport) (sha1 : String → String) (PP : Nat) (url : String)
    (auth data : Option String) (qp : Option Params) (cache : Cache)
    (pp0 : Option Int) (cr resp : Response)
    (hp : get_elements_per_page qp = .ok pp0)
    (hc : cacheGet cache (url, auth_fingerprint sha1 auth) = some cr)
    (ht : t "GET" url (conditional_headers (auth_headers auth) (some cr)) none
            (params_of PP qp pp0) = resp) :
    (∀ d : String,
        (set_x_cache cr d).text = cr.text
      ∧ (set_x_cache cr d).status_code = cr.status_code
      ∧ (set_x_cache cr d).json_len = cr.json_len
      ∧ (set_x_cache cr d).links = cr.links
      ∧ ∀ k, k ≠ "X-Cache" → hGet (set_x_cache cr d).headers k = hGet cr.headers k)
    ∧ (resp.status_code = 304 →
        ¬((cr.json_len : Int) = per_page_of PP pp0 ∧ cr.links = []) →
        res_cache (online_request t sha1 PP "GET" url auth data qp cache) =
          some (cacheSet cache (url, auth_fingerprint sha1 auth)
            (set_x_cache cr "ONLINE_HIT"))
      ∧ res_resp (online_request t sha1 PP "GET" url auth data qp cache) =
          some (set_x_cache cr "ONLINE_HIT"))
    ∧ (resp.status_code ≠ 304 → should_serve_from_cache resp = true →
        res_cache (online_request t sha1 PP "GET" url auth data qp cache) =
          some (cacheSet cache (url, auth_fingerprint sha1 auth)
            (set_x_cache cr "RATE_LIMITED_HIT"))
      ∧ res_resp (online_request t sha1 PP "GET" url auth data qp cache) =
          some (set_x_cache cr "RATE_LIMITED_HIT"))
    ∧ offline_request sha1 "GET" url auth cache DEFAULT_ERROR_CODE DEFAULT_ERROR_MESSAGE =
        (set_x_cache cr "OFFLINE_HIT",
         cacheSet cache (url, auth_fingerprint sha1 auth) (set_x_cache cr "OFFLINE_HIT"),
         [])
    ∧ ∀ r : Response,
        cacheGet (cacheSet cache (url, auth_fingerprint sha1 auth) r)
          (url, auth_fingerprint sha1 auth) = some r
      ∧ ∀ k', k' ≠ (url, auth_fingerprint sha1 auth) →
          cacheGet (cacheSet cache (url, auth_fingerprint sha1 auth) r) k' =
            cacheGet cache k' := by
  refine ⟨?_, ?_, ?_, ?_, ?_⟩
  · intro d
    refine ⟨rfl, rfl, rfl, rfl, ?_⟩
    intro k hk
    unfold set_x_cache
    exact hGet_hSet_ne cr.headers "X-Cache" d k hk
  · intro h304 hne
    have key : online_request t sha1 PP "GET" url auth data qp cache =
        .ok (set_x_cache cr "ONLINE_HIT",
             cacheSet cache (url, auth_fingerprint sha1 auth) (set_x_cache cr "ONLINE_HIT"),
             [⟨"GET", url, conditional_headers (auth_headers auth) (some cr), none,
                params_of PP qp pp0⟩]) := by
      unfold online_request
      rw [hp]
      dsimp only
      rw [hc, ht]
      dsimp only
      rw [if_neg (by simp), if_pos h304, if_neg hne]
    rw [key]
    exact ⟨rfl, rfl⟩
  · intro hn304 hss
    have key : online_request t sha1 PP "GET" url auth data qp cache =
        .ok (set_x_cache cr "RATE_LIMITED_HIT",
             cacheSet cache (url, auth_fingerprint sha1 auth)
               (set_x_cache cr "RATE_LIMITED_HIT"),
             [⟨"GET", url, conditional_headers (auth_headers auth) (some cr), none,
                params_of PP qp pp0⟩]) := by
      unfold online_request
      rw [hp]
      dsimp only
      rw [hc, ht]
      dsimp only
      rw [if_neg (by simp), if_neg hn304, if_pos hss]
    rw [key]
    exact ⟨rfl, rfl⟩
  · unfold offline_request
    rw [if_neg (by simp), hc]
  · intro r
    exact ⟨cacheGet_cacheSet_self cache _ r,
           fun k' hk' => cacheGet_cacheSet_ne cache _ k' r hk'⟩

/-- C9 witness: at a concrete cached entry, the header rewrite keeps the body,
the online 304 hit leaves the store holding the served ONLINE_HIT response,
the offline hit does the same with OFFLINE_HIT, and a rate-limited 403 hit
returns the entry re-tagged RATE_LIMITED_HIT. -/
theorem C9_serve_mutates_only_diagnostic_witness :
    (set_x_cache (⟨200, [("ETag", "e1"), ("X-Cache", "ONLINE_MISS")], "[1]", 1, []⟩ :
        Response) "OFFLINE_HIT").text =
      (⟨200, [("ETag", "e1"), ("X-Cache", "ONLINE_MISS")], "[1]", 1, []⟩ : Response).text
    ∧ res_cache (online_request (fun _ _ _ _ _ => ⟨304, [], "", 0, []⟩) (fun s => s) 30
        "GET" "u" none none none
        [(("u", none), ⟨200, [("ETag", "e1"), ("X-Cache", "ONLINE_MISS")], "[1]", 1, []⟩)]) =
      some (cacheSet
        [(("u", none), ⟨200, [("ETag", "e1"), ("X-Cache", "ONLINE_MISS")], "[1]", 1, []⟩)]
        ("u", none)
        (set_x_cache ⟨200, [("ETag", "e1"), ("X-Cache", "ONLINE_MISS")], "[1]", 1, []⟩
          "ONLINE_HIT"))
    ∧ offline_request (fun s => s) "GET" "u" none
        [(("u", none), ⟨200, [("ETag", "e1"), ("X-Cache", "ONLINE_MISS")], "[1]", 1, []⟩)]
        DEFAULT_ERROR_CODE DEFAULT_ERROR_MESSAGE =
      (set_x_cache ⟨200, [("ETag", "e1"), ("X-Cache", "ONLINE_MISS")], "[1]", 1, []⟩
         "OFFLINE_HIT",
       cacheSet
         [(("u", none), ⟨200, [("ETag", "e1"), ("X-Cache", "ONLINE_MISS")], "[1]", 1, []⟩)]
         ("u", none)
         (set_x_cache ⟨200, [("ETag", "e1"), ("X-Cache", "ONLINE_MISS")], "[1]", 1, []⟩
           "OFFLINE_HIT"),
       [])
    ∧ res_resp (online_request
        (fun _ _ _ _ _ => ⟨403, [], "API rate limit exceeded", 0, []⟩) (fun s => s) 30
        "GET" "u" none none none
        [(("u", none), ⟨200, [("ETag", "e1"), ("X-Cache", "ONLINE_MISS")], "[1]", 1, []⟩)]) =
      some (set_x_cache ⟨200, [("ETag", "e1"), ("X-Cache", "ONLINE_MISS")], "[1]", 1, []⟩
        "RATE_LIMITED_HIT") :=
  ⟨((C9_serve_mutates_only_diagnostic (fun _ _ _ _ _ => ⟨304, [], "", 0, []⟩) (fun s => s)
      30 "u" none none none
      [(("u", none), ⟨200, [("ETag", "e1"), ("X-Cache", "ONLINE_MISS")], "[1]", 1, []⟩)]
      none ⟨200, [("ETag", "e1"), ("X-Cache", "ONLINE_MISS")], "[1]", 1, []⟩
      ⟨304, [], "", 0, []⟩ rfl rfl rfl).1 "OFFLINE_HIT").1,
   ((C9_serve_mutates_only_diagnostic (fun _ _ _ _ _ => ⟨304, [], "", 0, []⟩) (fun s => s)
      30 "u" none none none
      [(("u", none), ⟨200, [("ETag", "e1"), ("X-Cache", "ONLINE_MISS")], "[1]", 1, []⟩)]
      none ⟨200, [("ETag", "e1"), ("X-Cache", "ONLINE_MISS")], "[1]", 1, []⟩
      ⟨304, [], "", 0, []⟩ rfl rfl rfl).2.1 rfl (by decide)).1,
   (C9_serve_mutates_only_diagnostic (fun _ _ _ _ _ => ⟨304, [], "", 0, []⟩) (fun s => s)
      30 "u" none none none
      [(("u", none), ⟨200, [("ETag", "e1"), ("X-Cache", "ONLINE_MISS")], "[1]", 1, []⟩)]
      none ⟨200, [("ETag", "e1"), ("X-Cache", "ONLINE_MISS")], "[1]", 1, []⟩
      ⟨304, [], "", 0, []⟩ rfl rfl rfl).2.2.2.1,
   ((C9_serve_mutates_only_diagnostic
      (fun _ _ _ _ _ => ⟨403, [], "API rate limit exceeded", 0, []⟩) (fun s => s)
      30 "u" none none none
      [(("u", none), ⟨200, [("ETag", "e1"), ("X-Cache", "ONLINE_MISS")], "[1]", 1, []⟩)]
      none ⟨200, [("ETag", "e1"), ("X-Cache", "ONLINE_MISS")], "[1]", 1, []⟩
      ⟨403, [], "API rate limit exceeded", 0, []⟩ rfl rfl rfl).2.2.1
      (by decide) (by decide)).2⟩

/-- C10: when no cache entry exists for a GET and the upstream nevertheless
answers 304, the online handler dereferences the absent cached response and
raises AttributeError; conversely that error can only arise when the cache had
no entry for the key, so the branch is safe exactly under the precondition
that an entry existed. -/
theorem C10_none_dereference_on_304
    (t : Transport) (sha1 : String → String) (PP : Nat) (url : String)
    (auth data : Option String) (qp : Option Params) (cache : Cache)
    (pp0 : Option Int) (resp : Response)
    (hp : get_elements_per_page qp = .ok pp0)
    (hnone : cacheGet cache (url, auth_fingerprint sha1 auth) = none)
    (ht : t "GET" url (conditional_headers (auth_headers auth) none) none
            (params_of PP qp pp0) = resp)
    (h304 : resp.status_code = 304) :
    online_request t sha1 PP "GET" url auth data qp cache = .error .attributeError
    ∧ ∀ (t2 : Transport) (sha2 : String → String) (PP2 : Nat) (m2 url2 : String)
        (auth2 data2 : Option String) (qp2 : Option Params) (cache2 : Cache),
        online_request t2 sha2 PP2 m2 url2 auth2 data2 qp2 cache2 =
          .error .attributeError →
        cacheGet cache2 (url2, auth_fingerprint sha2 auth2) = none := by
  constructor
  · unfold online_request
    rw [hp]
    dsimp only
    rw [hnone, ht]
    dsimp only
    rw [if_neg (by simp), if_pos h304]
  · intro t2 sha2 PP2 m2 url2 auth2 data2 qp2 cache2 h
    unfold online_request at h
    cases hpe : get_elements_per_page qp2 with
    | error e =>
      rw [hpe] at h
      dsimp only at h
      injection h with h
      have hv := get_elements_per_page_error qp2 e hpe
      subst h
      exact PyErr.noConfusion hv
    | ok pp2 =>
      rw [hpe] at h
      dsimp only at h
      by_cases hm : m2 ≠ "GET"
      · rw [if_pos hm] at h
        exact Except.noConfusion h
      · rw [if_neg hm] at h
        cases hcg : cacheGet cache2 (url2, auth_fingerprint sha2 auth2) with
        | none => rfl
        | some cr =>
          exfalso
          rw [hcg] at h
          dsimp only at h
          by_cases h3 : (t2 "GET" url2 (conditional_headers (auth_headers auth2) (some cr))
              none (params_of PP2 qp2 pp2)).status_code = 304
          · rw [if_pos h3] at h
            by_cases hc2 : (cr.json_len : Int) = per_page_of PP2 pp2 ∧ cr.links = []
            · rw [if_pos hc2] at h
              cases hpop : hPop (conditional_headers (auth_headers auth2) (some cr))
                  "If-None-Match" with
              | error e2 =>
                rw [hpop] at h
                injection h with h
                have hk := hPop_error _ "If-None-Match" e2 hpop
                subst h
                exact PyErr.noConfusion hk
              | ok h2s =>
                rw [hpop] at h
                exact Except.noConfusion h
            · rw [if_neg hc2] at h
              exact Except.noConfusion h
          · rw [if_neg h3] at h
            by_cases hs : should_serve_from_cache (t2 "GET" url2
                (conditional_headers (auth_headers auth2) (some cr)) none
                (params_of PP2 qp2 pp2)) = true
            · rw [if_pos hs] at h
              exact Except.noConfusion h
            · rw [if_neg hs] at h
              exact Except.noConfusion h

/-- C10 witness: with an empty cache and a transport answering 304, the online
handler raises AttributeError, and the backward direction recovers that the
cache had no entry for the key. -/
theorem C10_none_dereference_on_304_witness :
    online_request (fun _ _ _ _ _ => ⟨304, [], "", 0, []⟩) (fun s => s) 30 "GET" "u"
        none none none [] = .error .attributeError
    ∧ cacheGet ([] : Cache) ("u", auth_fingerprint (fun s => s) none) = none :=
  ⟨(C10_none_dereference_on_304 (fun _ _ _ _ _ => ⟨304, [], "", 0, []⟩) (fun s => s) 30
      "u" none none none [] none ⟨304, [], "", 0, []⟩ rfl rfl rfl rfl).1,
   (C10_none_dereference_on_304 (fun _ _ _ _ _ => ⟨304, [], "", 0, []⟩) (fun s => s) 30
      "u" none none none [] none ⟨304, [], "", 0, []⟩ rfl rfl rfl rfl).2
     (fun _ _ _ _ _ => ⟨304, [], "", 0, []⟩) (fun s => s) 30 "GET" "u" none none none []
     (C10_none_dereference_on_304 (fun _ _ _ _ _ => ⟨304, [], "", 0, []⟩) (fun s => s) 30
        "u" none none none [] none ⟨304, [], "", 0, []⟩ rfl rfl rfl rfl).1⟩
